import Mathlib

/-!
Verification development for the photobot Telegram bot (src/main.py).

The program is a thin event-dispatch wrapper around a bot-framework
library.  We shallow-embed the handler bodies as pure Lean functions:
each handler consumes an inbound update and produces the ordered trace
of observable external actions it performs (network calls, filesystem
writes, outbound messages) together with the failure it raises, if any.
The external framework (long polling, routing, transport) is not part
of the embedded core; the bot transport is modelled as an environment
mapping a file id to the framework file object it returns.
-/

namespace Photobot

/-- One observable external action performed by a handler: a framework
file fetch (`bot.get_file`), a filesystem write (`download_to_drive`),
a reply to the requesting chat (`reply_html`), or a direct
`send_message` with an explicit chat id and parse mode. -/
inductive Action where
  | getFile (file_id : String)
  | downloadToDrive (path : String)
  | replyHtml (chat_id : Int) (text : String)
  | sendMessage (chat_id : Option String) (text : String) (parse_mode : String)
  deriving DecidableEq

/-- Failures a handler can raise.  `Unauthorized` is the
`error.Forbidden` raised by `check_user`; `ConversionError` is the
`TypeError`/`ValueError` raised by `int(DEVELOPER_CHAT_ID)` when the
environment value is absent or not a decimal integer string;
`IntentionalFault` is the `AttributeError` raised by
`bot.wrong_method_name()` in `bad_command`; `IndexedAccessFault` and
`AttributeFault` model `photo[-1]` on an empty list and `.video` being
`None`. -/
inductive Err where
  | Unauthorized
  | ConversionError
  | IntentionalFault
  | IndexedAccessFault
  | AttributeFault
  deriving DecidableEq

/-- Result of running one handler: the ordered trace of external
actions it performed before returning or failing, and the failure it
raised (`none` when it returned normally). -/
structure HRes where
  trace : List Action
  err : Option Err
  deriving DecidableEq

/-- One resolution variant of a photo message (`telegram.PhotoSize`):
only the `file_id` reference matters to the handlers. -/
structure PhotoSize where
  file_id : String
  deriving DecidableEq

/-- The video payload of a video message (`telegram.Video`). -/
structure VideoPayload where
  file_id : String
  deriving DecidableEq

/-- The message payload of an inbound update: the ordered list of photo
resolution variants (empty when the message carries no photo) and the
optional video payload. -/
structure Message where
  photo : List PhotoSize
  video : Option VideoPayload
  deriving DecidableEq

/-- An inbound update: the origin chat id (`update.effective_chat.id`)
and the message payload. -/
structure Update where
  chat_id : Int
  message : Message
  deriving DecidableEq

/-- The framework object returned by `bot.get_file`: only its
`file_path` is consumed. -/
structure TgFile where
  file_path : String
  deriving DecidableEq

/-- The bot transport environment: what `bot.get_file` returns for each
file id. -/
structure BotEnv where
  get_file : String → TgFile

/-- Process configuration: the raw `DEVELOPER_CHAT_ID` environment
value read by `os.getenv` at module load (`none` when the variable is
absent). -/
structure Config where
  DEVELOPER_CHAT_ID : Option String
  deriving DecidableEq

/-- Whitespace recognised when parsing an integer from a string,
matching Python `int()` stripping. -/
def isSpaceChar (c : Char) : Bool :=
  c = ' ' || c = '\t' || c = '\n' || c = '\r'

/-- Strip leading and trailing whitespace from a character list. -/
def trimChars (l : List Char) : List Char :=
  ((l.dropWhile isSpaceChar).reverse.dropWhile isSpaceChar).reverse

/-- Decimal digit test. -/
def isDigitChar (c : Char) : Bool :=
  decide (48 ≤ c.toNat) && decide (c.toNat ≤ 57)

/-- Numeric value of a string of decimal digits. -/
def decVal (l : List Char) : Nat :=
  l.foldl (fun a c => a * 10 + (c.toNat - 48)) 0

/-- Parse an optionally signed run of decimal digits; `none` when the
characters do not form a decimal integer. -/
def parseSigned : List Char → Option Int
  | [] => none
  | c :: rest =>
    if c = '-' then
      if !rest.isEmpty && rest.all isDigitChar then some (-(decVal rest : Int)) else none
    else if c = '+' then
      if !rest.isEmpty && rest.all isDigitChar then some ((decVal rest : Nat) : Int) else none
    else if (c :: rest).all isDigitChar then some ((decVal (c :: rest) : Nat) : Int) else none

/-- Models Python `int()` applied to the raw environment value: `none`
both when the variable is absent (`int(None)` raises `TypeError`) and
when the string is not a decimal integer (`int(s)` raises
`ValueError`); underscore digit separators are not modelled. -/
def pyInt? : Option String → Option Int
  | none => none
  | some s => parseSigned (trimChars s.data)

/-- `check_user` (src/main.py:87-89): re-parses `DEVELOPER_CHAT_ID` on
every call, then compares the origin chat id against it; raises
`Forbidden` (modelled as `Err.Unauthorized`) on mismatch.  It performs
no external action, so it returns a bare `Except` with no trace. -/
def check_user (cfg : Config) (update : Update) : Except Err Unit :=
  match pyInt? cfg.DEVELOPER_CHAT_ID with
  | none => Except.error Err.ConversionError
  | some d => if update.chat_id = d then Except.ok () else Except.error Err.Unauthorized

/-- Split a character list at every slash, Python `str.split("/")`:
always returns a non-empty list of (possibly empty) segments. -/
def splitSlash : List Char → List (List Char)
  | [] => [[]]
  | c :: rest =>
    if c = '/' then [] :: splitSlash rest
    else (c :: (splitSlash rest).headD []) :: (splitSlash rest).tail

/-- `download_file` (src/main.py:81-84): resolves the file id through
`bot.get_file`, takes the final slash-separated segment of the returned
`file_path` as the local filename, and writes under the fixed base
directory `/files/`.  Returns the trace of the two external actions. -/
def download_file (file_id : String) (bot : BotEnv) : List Action :=
  let new_file := bot.get_file file_id
  let filename := (splitSlash new_file.file_path.data).getLastD []
  [Action.getFile file_id, Action.downloadToDrive ("/files/" ++ String.mk filename)]

/-- The usage text replied by `start` (and, verbatim, by `video`):
includes the caller's chat id in decimal. -/
def usage_text (c : Int) : String :=
  "Use /bad_command to cause an error.\nYour chat id is <code>" ++ toString c ++ "</code>."

/-- `start` (src/main.py:54-60): guard, then reply with the usage text
carrying the caller's chat id. -/
def start (cfg : Config) (update : Update) : HRes :=
  match check_user cfg update with
  | Except.error e => ⟨[], some e⟩
  | Except.ok _ => ⟨[Action.replyHtml update.chat_id (usage_text update.chat_id)], none⟩

/-- `bad_command` (src/main.py:49-51): no guard is present in the
source; the handler immediately evaluates `context.bot.wrong_method_name()`,
whose attribute lookup raises before any network action. -/
def bad_command (_cfg : Config) (_update : Update) : HRes :=
  ⟨[], some Err.IntentionalFault⟩

/-- `image` (src/main.py:63-67): guard, then download the last photo
resolution variant (`update.message.photo[-1]`), then confirm. -/
def image (cfg : Config) (bot : BotEnv) (update : Update) : HRes :=
  match check_user cfg update with
  | Except.error e => ⟨[], some e⟩
  | Except.ok _ =>
    match update.message.photo.getLast? with
    | none => ⟨[], some Err.IndexedAccessFault⟩
    | some p =>
      ⟨download_file p.file_id bot ++ [Action.replyHtml update.chat_id "Downloaded image"], none⟩

/-- `video` (src/main.py:70-78): guard, then download the video
payload, then send the usage text and a confirmation. -/
def video (cfg : Config) (bot : BotEnv) (update : Update) : HRes :=
  match check_user cfg update with
  | Except.error e => ⟨[], some e⟩
  | Except.ok _ =>
    match update.message.video with
    | none => ⟨[], some Err.AttributeFault⟩
    | some v =>
      ⟨download_file v.file_id bot ++
        [Action.replyHtml update.chat_id (usage_text update.chat_id),
         Action.replyHtml update.chat_id "Downloaded video"], none⟩

/-- Per-character HTML escaping, Python `html.escape` with its default
quoting: `&`, `<`, `>`, the double quote and the apostrophe are
replaced by their entities, every other character is kept. -/
def escC (c : Char) : List Char :=
  if c = '&' then "&amp;".data
  else if c = '<' then "&lt;".data
  else if c = '>' then "&gt;".data
  else if c = Char.ofNat 34 then "&quot;".data
  else if c = Char.ofNat 39 then "&#x27;".data
  else [c]

/-- HTML-escape a character list. -/
def escList (l : List Char) : List Char :=
  (l.map escC).flatten

/-- HTML-escape a string (`html.escape`). -/
def htmlEscape (s : String) : String :=
  String.mk (escList s.data)

/-- The inputs of one `error_handler` invocation, as the handler
consumes them: the serialized triggering event (the `json.dumps` of
`update.to_dict()`, or `str(update)`), the `str()` forms of the
chat-scoped and user-scoped auxiliary state, and the joined traceback
text produced by `traceback.format_exception`. -/
structure ErrorContext where
  update_str : String
  chat_data : String
  user_data : String
  tb_string : String
  deriving DecidableEq

/-- The report text built by `error_handler` (src/main.py:34-41): a
fixed header followed by the four HTML-escaped components, each inside
a `<pre>` block. -/
def error_message (update_str chat_data user_data tb_string : String) : String :=
  "An exception was raised while handling an update\n" ++
  "<pre>update = " ++ htmlEscape update_str ++ "</pre>\n\n" ++
  "<pre>context.chat_data = " ++ htmlEscape chat_data ++ "</pre>\n\n" ++
  "<pre>context.user_data = " ++ htmlEscape user_data ++ "</pre>\n\n" ++
  "<pre>" ++ htmlEscape tb_string ++ "</pre>"

/-- `error_handler` (src/main.py:20-46): builds the report text and
sends exactly one message to the raw `DEVELOPER_CHAT_ID` with
HTML parse mode. -/
def error_handler (cfg : Config) (ctx : ErrorContext) : List Action :=
  [Action.sendMessage cfg.DEVELOPER_CHAT_ID
    (error_message ctx.update_str ctx.chat_data ctx.user_data ctx.tb_string) "HTML"]

/-- The dispatcher invokes `error_handler` once per unhandled failure,
in order; the reporter keeps no state between invocations. -/
def reportAll (cfg : Config) (failures : List ErrorContext) : List (List Action) :=
  failures.map (error_handler cfg)

/-- The file ids fetched over the network in a trace, in order. -/
def fetches (t : List Action) : List String :=
  t.filterMap fun a =>
    match a with
    | Action.getFile fid => some fid
    | _ => none

/-- `pat` occurs contiguously inside `l`. -/
def OccursIn (pat l : List Char) : Prop :=
  ∃ u v, l = u ++ pat ++ v

/-- A `<pre>`-wrapped section of the error report. -/
def preBlock (inner : String) : String :=
  "<pre>" ++ inner ++ "</pre>"

/-- Whether a character list starts with a character that may follow a
literal `<` in the report text: only the `p` of `<pre>` and the `/` of
`</pre>` do. -/
def goodHeadOk : List Char → Bool
  | [] => false
  | b :: _ => b = 'p' || b = '/'

/-- Every `<` in the list is immediately followed by `p` or `/`. -/
def goodLtB : List Char → Bool
  | [] => true
  | c :: rest => (if c = '<' then goodHeadOk rest else true) && goodLtB rest

/-- Concrete fixture: configuration whose environment value parses to 42. -/
def cfg42 : Config := ⟨some "42"⟩

/-- Concrete fixture: configuration whose environment value is not a
decimal integer string. -/
def cfgBad : Config := ⟨some "12a"⟩

/-- Concrete fixture: transport environment resolving every file id to
a slash-separated remote path. -/
def botA : BotEnv := ⟨fun _ => ⟨"abc/def/image123.jpg"⟩⟩

/-- Concrete fixture: empty message payload. -/
def msg0 : Message := ⟨[], none⟩

/-- Concrete fixture: update from unauthorized chat 7. -/
def upd7 : Update := ⟨7, msg0⟩

/-- Concrete fixture: update from unauthorized chat 5. -/
def upd5 : Update := ⟨5, msg0⟩

/-- Concrete fixture: update from the authorized chat 42. -/
def upd42 : Update := ⟨42, msg0⟩

/-- Concrete fixture: authorized update carrying three photo
resolution variants. -/
def updPhotos : Update := ⟨42, ⟨[⟨"v1"⟩, ⟨"v2"⟩, ⟨"v3"⟩], none⟩⟩

/-- Concrete fixture: error-handler inputs whose traceback text
contains raw script markup. -/
def ctx0 : ErrorContext := ⟨"u0", "c0", "d0", "x<script>y"⟩

/-- Concrete fixture: a second, unrelated error-handler input. -/
def ctx1 : ErrorContext := ⟨"u1", "c1", "d1", "t1"⟩

end Photobot

namespace Photobot

theorem check_user_ok (cfg : Config) (u : Update) (d : Int)
    (h1 : pyInt? cfg.DEVELOPER_CHAT_ID = some d) (h2 : u.chat_id = d) :
    check_user cfg u = Except.ok () := by
  unfold check_user
  rw [h1]
  simp [h2]

theorem check_user_rejects (cfg : Config) (u : Update) (d : Int)
    (h1 : pyInt? cfg.DEVELOPER_CHAT_ID = some d) (h2 : u.chat_id ≠ d) :
    check_user cfg u = Except.error Err.Unauthorized := by
  unfold check_user
  rw [h1]
  simp [h2]

/-- C1 counterexample: with a well-formed configuration authorizing
chat 42, the caller from chat 7 is unauthorized, yet `/bad_command`
raises `IntentionalFault`, not `Unauthorized` — the source handler
contains no guard call. -/
theorem bad_command_unauthorized_counterexample :
    pyInt? cfg42.DEVELOPER_CHAT_ID = some 42 ∧ upd7.chat_id ≠ 42 ∧
    (bad_command cfg42 upd7).err = some Err.IntentionalFault ∧
    (bad_command cfg42 upd7).err ≠ some Err.Unauthorized := by
  decide

/-- C1 (amended): the `/bad_command` handler performs no access-guard
check at all: every invocation, authorized or not, performs no external
action and raises `IntentionalFault`. -/
theorem bad_command_always_intentional_fault (cfg : Config) (u : Update) :
    bad_command cfg u = ⟨[], some Err.IntentionalFault⟩ :=
  rfl

/-- C2 counterexample: chat 5 is unauthorized under the configuration
authorizing chat 42, yet its `/bad_command` invocation does not raise
`Unauthorized` (it raises `IntentionalFault`), falsifying the claim for
the `/bad_command` handler. -/
theorem unauthorized_all_handlers_counterexample :
    pyInt? cfg42.DEVELOPER_CHAT_ID = some 42 ∧ upd5.chat_id ≠ 42 ∧
    ¬ (bad_command cfg42 upd5).err = some Err.Unauthorized := by
  decide

/-- C2 (amended): for every unauthorized origin chat id, the guarded
handlers `/start`, photo and video raise `Unauthorized` with an empty
action trace — no download is started and no reply is sent — while
`/bad_command` (which has no guard) raises `IntentionalFault`, likewise
with no network or filesystem action and no reply. -/
theorem unauthorized_guarded_handlers (cfg : Config) (bot : BotEnv) (u : Update) (d : Int)
    (h1 : pyInt? cfg.DEVELOPER_CHAT_ID = some d) (h2 : u.chat_id ≠ d) :
    start cfg u = ⟨[], some Err.Unauthorized⟩ ∧
    image cfg bot u = ⟨[], some Err.Unauthorized⟩ ∧
    video cfg bot u = ⟨[], some Err.Unauthorized⟩ ∧
    bad_command cfg u = ⟨[], some Err.IntentionalFault⟩ := by
  have hc := check_user_rejects cfg u d h1 h2
  exact ⟨by simp [start, hc], by simp [image, hc], by simp [video, hc], rfl⟩

theorem unauthorized_guarded_handlers_witness :
    pyInt? cfg42.DEVELOPER_CHAT_ID = some 42 ∧ upd7.chat_id ≠ 42 ∧
    (start cfg42 upd7 = ⟨[], some Err.Unauthorized⟩ ∧
     image cfg42 botA upd7 = ⟨[], some Err.Unauthorized⟩ ∧
     video cfg42 botA upd7 = ⟨[], some Err.Unauthorized⟩ ∧
     bad_command cfg42 upd7 = ⟨[], some Err.IntentionalFault⟩) :=
  ⟨by decide, by decide,
    unauthorized_guarded_handlers cfg42 botA upd7 42 (by decide) (by decide)⟩

/-- C7: `check_user` raises `Unauthorized` exactly when the origin chat
id differs from the parsed `DEVELOPER_CHAT_ID`, returns normally
exactly when they agree, and raises nothing else; its embedding returns
a bare result with no action trace, mirroring the absence of side
effects in the source. -/
theorem check_user_characterization (cfg : Config) (u : Update) (d : Int)
    (h : pyInt? cfg.DEVELOPER_CHAT_ID = some d) :
    (check_user cfg u = Except.error Err.Unauthorized ↔ u.chat_id ≠ d) ∧
    (check_user cfg u = Except.ok () ↔ u.chat_id = d) ∧
    ∀ e : Err, check_user cfg u = Except.error e → e = Err.Unauthorized := by
  unfold check_user
  rw [h]
  by_cases hc : u.chat_id = d <;> simp [hc]

theorem check_user_characterization_witness :
    pyInt? cfg42.DEVELOPER_CHAT_ID = some 42 ∧
    ((check_user cfg42 upd7 = Except.error Err.Unauthorized ↔ upd7.chat_id ≠ 42) ∧
     (check_user cfg42 upd7 = Except.ok () ↔ upd7.chat_id = 42) ∧
     ∀ e : Err, check_user cfg42 upd7 = Except.error e → e = Err.Unauthorized) :=
  ⟨by decide, check_user_characterization cfg42 upd7 42 (by decide)⟩

/-- C9: the error reporter is a pure, stateless transform: the
dispatcher maps it over the failures one at a time, the second report
of any two-failure sequence is exactly the report of the second failure
alone, and it is unchanged when the first failure is replaced by any
other. -/
theorem error_reporter_stateless (cfg : Config) (f1 f1' f2 : ErrorContext) :
    reportAll cfg [f1, f2] = [error_handler cfg f1, error_handler cfg f2] ∧
    (reportAll cfg [f1, f2])[1]? = some (error_handler cfg f2) ∧
    (reportAll cfg [f1, f2])[1]? = (reportAll cfg [f1', f2])[1]? := by
  refine ⟨rfl, ?_, ?_⟩ <;> simp [reportAll]

/-- C10: when the raw `DEVELOPER_CHAT_ID` environment value is absent
or not a decimal integer string, `int()` fails on every guard check, so
every guarded handler invocation — from any chat, including the
intended developer chat — fails with the conversion error, never with
`Unauthorized`, and no request is ever authorized. -/
theorem missing_config_never_authorizes (cfg : Config) (bot : BotEnv) (u : Update)
    (h : pyInt? cfg.DEVELOPER_CHAT_ID = none) :
    check_user cfg u = Except.error Err.ConversionError ∧
    start cfg u = ⟨[], some Err.ConversionError⟩ ∧
    image cfg bot u = ⟨[], some Err.ConversionError⟩ ∧
    video cfg bot u = ⟨[], some Err.ConversionError⟩ := by
  have hc : check_user cfg u = Except.error Err.ConversionError := by
    unfold check_user
    rw [h]
  exact ⟨hc, by simp [start, hc], by simp [image, hc], by simp [video, hc]⟩

theorem missing_config_never_authorizes_witness :
    pyInt? cfgBad.DEVELOPER_CHAT_ID = none ∧ pyInt? (none : Option String) = none ∧
    (check_user cfgBad upd42 = Except.error Err.ConversionError ∧
     start cfgBad upd42 = ⟨[], some Err.ConversionError⟩ ∧
     image cfgBad botA upd42 = ⟨[], some Err.ConversionError⟩ ∧
     video cfgBad botA upd42 = ⟨[], some Err.ConversionError⟩) :=
  ⟨by decide, by decide,
    missing_config_never_authorizes cfgBad botA upd42 (by decide)⟩

/-- C3: for an authorized photo event with a non-empty variant list,
the only file reference fetched is the one of the last variant. -/
theorem image_downloads_last_variant (cfg : Config) (bot : BotEnv) (u : Update)
    (d : Int) (p : PhotoSize)
    (h1 : pyInt? cfg.DEVELOPER_CHAT_ID = some d) (h2 : u.chat_id = d)
    (h3 : u.message.photo.getLast? = some p) :
    fetches (image cfg bot u).trace = [p.file_id] ∧ (image cfg bot u).err = none := by
  have hc := check_user_ok cfg u d h1 h2
  simp [image, hc, h3, download_file, fetches]

theorem image_downloads_last_variant_witness :
    pyInt? cfg42.DEVELOPER_CHAT_ID = some 42 ∧ updPhotos.chat_id = 42 ∧
    updPhotos.message.photo.getLast? = some ⟨"v3"⟩ ∧
    (fetches (image cfg42 botA updPhotos).trace = ["v3"] ∧
     (image cfg42 botA updPhotos).err = none) :=
  ⟨by decide, by decide, by decide,
    image_downloads_last_variant cfg42 botA updPhotos 42 ⟨"v3"⟩
      (by decide) (by decide) (by decide)⟩

/-- C8: an authorized `/start` invocation sends exactly one reply to
the caller, and the reply text contains the decimal string of the
caller's chat id as a contiguous substring. -/
theorem start_replies_with_chat_id (cfg : Config) (u : Update) (d : Int)
    (h1 : pyInt? cfg.DEVELOPER_CHAT_ID = some d) (h2 : u.chat_id = d) :
    start cfg u = ⟨[Action.replyHtml u.chat_id (usage_text u.chat_id)], none⟩ ∧
    OccursIn (toString u.chat_id).data (usage_text u.chat_id).data := by
  have hc := check_user_ok cfg u d h1 h2
  refine ⟨by simp [start, hc],
    ⟨"Use /bad_command to cause an error.\nYour chat id is <code>".data, "</code>.".data, ?_⟩⟩
  simp [usage_text, String.data_append, List.append_assoc]

theorem splitSlash_ne_nil (l : List Char) : splitSlash l ≠ [] := by
  cases l with
  | nil => simp [splitSlash]
  | cons c rest => by_cases h : c = '/' <;> simp [splitSlash, h]

theorem splitSlash_no_slash (l : List Char) (h : '/' ∉ l) : splitSlash l = [l] := by
  induction l with
  | nil => rfl
  | cons c rest ih =>
    have hc : c ≠ '/' := fun hcc => h (hcc ▸ List.mem_cons_self c rest)
    have hr : '/' ∉ rest := fun hm => h (List.mem_cons_of_mem c hm)
    simp [splitSlash, hc, ih hr]

theorem splitSlash_tail_ne_nil (l : List Char) (h : '/' ∈ l) : (splitSlash l).tail ≠ [] := by
  induction l with
  | nil => simp at h
  | cons c rest ih =>
    by_cases hc : c = '/'
    · simp [splitSlash, hc]
      exact splitSlash_ne_nil rest
    · have hr : '/' ∈ rest := by
        rcases List.mem_cons.mp h with h1 | h1
        · exact absurd h1.symm hc
        · exact h1
      simp [splitSlash, hc]
      exact ih hr

theorem splitSlash_last_append (xs ys : List Char) :
    (splitSlash (xs ++ '/' :: ys)).getLastD [] = (splitSlash ys).getLastD [] := by
  induction xs with
  | nil =>
    rw [List.nil_append,
      show splitSlash ('/' :: ys) = [] :: splitSlash ys from by simp [splitSlash],
      List.getLastD_cons]
  | cons c xs ih =>
    by_cases hc : c = '/'
    · subst hc
      rw [List.cons_append,
        show splitSlash ('/' :: (xs ++ '/' :: ys)) = [] :: splitSlash (xs ++ '/' :: ys) from by
          simp [splitSlash],
        List.getLastD_cons]
      exact ih
    · rw [List.cons_append,
        show splitSlash (c :: (xs ++ '/' :: ys)) =
            (c :: (splitSlash (xs ++ '/' :: ys)).headD []) :: (splitSlash (xs ++ '/' :: ys)).tail
          from by simp [splitSlash, hc],
        List.getLastD_cons]
      have hmem : '/' ∈ xs ++ '/' :: ys := List.mem_append_right xs (List.mem_cons_self _ _)
      have htail := splitSlash_tail_ne_nil (xs ++ '/' :: ys) hmem
      revert ih htail
      cases hR : splitSlash (xs ++ '/' :: ys) with
      | nil => exact absurd hR (splitSlash_ne_nil _)
      | cons h0 t =>
        cases t with
        | nil =>
          intro _ htl
          simp at htl
        | cons h1 t1 =>
          intro ih _
          simp only [List.tail_cons]
          rw [List.getLastD_cons]
          rw [List.getLastD_cons, List.getLastD_cons] at ih
          exact ih

/-- C4: when the remote path resolved for a media reference splits as a
directory part, a slash, and a slash-free final segment, `download_file`
fetches the reference and writes exactly once, to the fixed base
directory `/files/` under a filename equal to that final segment. -/
theorem download_file_uses_last_segment (bot : BotEnv) (fid : String) (pre seg : List Char)
    (hp : (bot.get_file fid).file_path.data = pre ++ '/' :: seg) (hs : '/' ∉ seg) :
    download_file fid bot =
      [Action.getFile fid, Action.downloadToDrive ("/files/" ++ String.mk seg)] := by
  simp only [download_file]
  rw [hp, splitSlash_last_append, splitSlash_no_slash seg hs]
  rfl

theorem download_file_uses_last_segment_witness :
    botA.get_file "fid1" = ⟨"abc/def/image123.jpg"⟩ ∧
    ("abc/def/image123.jpg" : String).data = "abc/def".data ++ '/' :: "image123.jpg".data ∧
    '/' ∉ ("image123.jpg" : String).data ∧
    download_file "fid1" botA =
      [Action.getFile "fid1", Action.downloadToDrive "/files/image123.jpg"] := by
  refine ⟨rfl, by decide, by decide, ?_⟩
  have h := download_file_uses_last_segment botA "fid1" "abc/def".data "image123.jpg".data
    (by decide) (by decide)
  rw [h]
  decide

theorem str_ext {a b : String} (h : a.data = b.data) : a = b := by
  cases a
  cases b
  exact congrArg String.mk h

/-- C6: the error reporter sends exactly one message, addressed to the
configured developer chat, with HTML parse mode, whose body is the
header followed by the four HTML-escaped components each wrapped in a
`<pre>` block, concatenated into a single text. -/
theorem error_handler_single_html_report (cfg : Config) (ctx : ErrorContext) :
    (error_handler cfg ctx).length = 1 ∧
    error_handler cfg ctx =
      [Action.sendMessage cfg.DEVELOPER_CHAT_ID
        ("An exception was raised while handling an update\n" ++
         preBlock ("update = " ++ htmlEscape ctx.update_str) ++ "\n\n" ++
         preBlock ("context.chat_data = " ++ htmlEscape ctx.chat_data) ++ "\n\n" ++
         preBlock ("context.user_data = " ++ htmlEscape ctx.user_data) ++ "\n\n" ++
         preBlock (htmlEscape ctx.tb_string)) "HTML"] := by
  refine ⟨rfl, ?_⟩
  have hmsg : error_message ctx.update_str ctx.chat_data ctx.user_data ctx.tb_string =
      ("An exception was raised while handling an update\n" ++
       preBlock ("update = " ++ htmlEscape ctx.update_str) ++ "\n\n" ++
       preBlock ("context.chat_data = " ++ htmlEscape ctx.chat_data) ++ "\n\n" ++
       preBlock ("context.user_data = " ++ htmlEscape ctx.user_data) ++ "\n\n" ++
       preBlock (htmlEscape ctx.tb_string)) := by
    apply str_ext
    simp only [error_message, preBlock, String.data_append, List.append_assoc,
      List.cons_append, List.nil_append]
  simp [error_handler, hmsg]

theorem escC_no_lt (c : Char) : '<' ∉ escC c := by
  unfold escC
  by_cases h1 : c = '&'
  · rw [if_pos h1]; decide
  rw [if_neg h1]
  by_cases h2 : c = '<'
  · rw [if_pos h2]; decide
  rw [if_neg h2]
  by_cases h3 : c = '>'
  · rw [if_pos h3]; decide
  rw [if_neg h3]
  by_cases h4 : c = Char.ofNat 34
  · rw [if_pos h4]; decide
  rw [if_neg h4]
  by_cases h5 : c = Char.ofNat 39
  · rw [if_pos h5]; decide
  rw [if_neg h5]
  simp only [List.mem_singleton]
  exact fun hh => h2 hh.symm

theorem escList_no_lt (l : List Char) : '<' ∉ escList l := by
  intro hmem
  unfold escList at hmem
  rw [List.mem_flatten] at hmem
  obtain ⟨s, hs, hin⟩ := hmem
  rw [List.mem_map] at hs
  obtain ⟨c, _, rfl⟩ := hs
  exact escC_no_lt c hin

theorem escList_append (x y : List Char) : escList (x ++ y) = escList x ++ escList y := by
  unfold escList
  rw [List.map_append, List.flatten_append]

theorem goodHeadOk_append (xs ys : List Char) (h : goodHeadOk xs = true) :
    goodHeadOk (xs ++ ys) = true := by
  cases xs with
  | nil => exact absurd h (by decide)
  | cons b t => exact h

theorem goodLtB_tail {c : Char} {l : List Char} (h : goodLtB (c :: l) = true) :
    goodLtB l = true := by
  unfold goodLtB at h
  rw [Bool.and_eq_true] at h
  exact h.2

theorem goodLtB_head_lt {l : List Char} (h : goodLtB ('<' :: l) = true) :
    goodHeadOk l = true := by
  unfold goodLtB at h
  rw [Bool.and_eq_true] at h
  have h1 := h.1
  rwa [if_pos rfl] at h1

theorem goodLtB_append (xs ys : List Char) (hy : goodLtB ys = true) :
    ∀ (_ : goodLtB xs = true) (_ : xs.getLast? ≠ some '<'),
    goodLtB (xs ++ ys) = true := by
  induction xs with
  | nil =>
    intro _ _
    simpa using hy
  | cons c xs ih =>
    intro hx hb
    rw [List.cons_append]
    unfold goodLtB
    rw [Bool.and_eq_true]
    constructor
    · by_cases hc : c = '<'
      · rw [if_pos hc]
        subst hc
        exact goodHeadOk_append xs ys (goodLtB_head_lt hx)
      · rw [if_neg hc]
    · cases xs with
      | nil => simpa using hy
      | cons b t =>
        have hb2 : (b :: t).getLast? ≠ some '<' := by
          rwa [List.getLast?_cons_cons] at hb
        exact ih (goodLtB_tail hx) hb2

theorem goodLtB_of_no_lt (l : List Char) (h : '<' ∉ l) : goodLtB l = true := by
  induction l with
  | nil => rfl
  | cons c rest ih =>
    have hc : c ≠ '<' := fun hcc => h (hcc ▸ List.mem_cons_self c rest)
    have hr := ih fun hm => h (List.mem_cons_of_mem c hm)
    unfold goodLtB
    rw [if_neg hc, Bool.true_and]
    exact hr

theorem getLast?_no_lt {l : List Char} (h : '<' ∉ l) : l.getLast? ≠ some '<' :=
  fun hh => h (List.mem_of_getLast?_eq_some hh)

theorem no_lt_s_aux (u : List Char) :
    ∀ (l v : List Char), goodLtB l = true → l = u ++ '<' :: 's' :: v → False := by
  induction u with
  | nil =>
    intro l v h hl
    rw [List.nil_append] at hl
    subst hl
    unfold goodLtB at h
    rw [if_pos rfl] at h
    have hfalse : goodHeadOk ('s' :: v) = false := rfl
    rw [hfalse, Bool.false_and] at h
    exact Bool.noConfusion h
  | cons a u ih =>
    intro l v h hl
    cases l with
    | nil => exact absurd hl (by simp)
    | cons b rest =>
      rw [List.cons_append] at hl
      simp only [List.cons.injEq] at hl
      exact ih rest v (goodLtB_tail h) hl.2

theorem goodLtB_no_occurs (l : List Char) (h : goodLtB l = true) :
    ¬ OccursIn ['<', 's'] l := by
  intro hocc
  obtain ⟨u, v, hl⟩ := hocc
  refine no_lt_s_aux u l v h ?_
  rw [hl, List.append_assoc]
  rfl

theorem occursIn_append_right (pat xs ys : List Char) (h : OccursIn pat ys) :
    OccursIn pat (xs ++ ys) := by
  obtain ⟨u, v, rfl⟩ := h
  exact ⟨xs ++ u, v, by simp [List.append_assoc]⟩

theorem occursIn_append_left (pat xs ys : List Char) (h : OccursIn pat xs) :
    OccursIn pat (xs ++ ys) := by
  obtain ⟨u, v, rfl⟩ := h
  exact ⟨u, v ++ ys, by simp [List.append_assoc]⟩

theorem occursIn_script_pair {l : List Char} (h : OccursIn ("<script>" : String).data l) :
    OccursIn ['<', 's'] l := by
  obtain ⟨u, v, rfl⟩ := h
  refine ⟨u, "cript>".data ++ v, ?_⟩
  have hsplit : ("<script>" : String).data = ['<', 's'] ++ "cript>".data := by decide
  rw [hsplit]
  simp [List.append_assoc]

theorem error_message_data (a b c d : String) :
    (error_message a b c d).data =
      "An exception was raised while handling an update\n".data ++
      ("<pre>update = ".data ++ (escList a.data ++ ("</pre>\n\n".data ++
      ("<pre>context.chat_data = ".data ++ (escList b.data ++ ("</pre>\n\n".data ++
      ("<pre>context.user_data = ".data ++ (escList c.data ++ ("</pre>\n\n".data ++
      ("<pre>".data ++ (escList d.data ++ "</pre>".data))))))))))) := by
  simp only [error_message, htmlEscape, String.data_append, List.append_assoc]

theorem goodLtB_error_message (a b c d : String) :
    goodLtB (error_message a b c d).data = true := by
  have gd : ∀ s : String, goodLtB (escList s.data) = true :=
    fun s => goodLtB_of_no_lt _ (escList_no_lt _)
  have ld : ∀ s : String, (escList s.data).getLast? ≠ some '<' :=
    fun s => getLast?_no_lt (escList_no_lt _)
  rw [error_message_data]
  refine goodLtB_append _ _ ?_ (by decide) (by decide)
  refine goodLtB_append _ _ ?_ (by decide) (by decide)
  refine goodLtB_append _ _ ?_ (gd a) (ld a)
  refine goodLtB_append _ _ ?_ (by decide) (by decide)
  refine goodLtB_append _ _ ?_ (by decide) (by decide)
  refine goodLtB_append _ _ ?_ (gd b) (ld b)
  refine goodLtB_append _ _ ?_ (by decide) (by decide)
  refine goodLtB_append _ _ ?_ (by decide) (by decide)
  refine goodLtB_append _ _ ?_ (gd c) (ld c)
  refine goodLtB_append _ _ ?_ (by decide) (by decide)
  refine goodLtB_append _ _ ?_ (by decide) (by decide)
  exact goodLtB_append _ _ (by decide) (gd d) (ld d)

theorem error_message_no_raw_script (a b c d : String) :
    ¬ OccursIn ("<script>" : String).data (error_message a b c d).data :=
  fun h => goodLtB_no_occurs _ (goodLtB_error_message a b c d) (occursIn_script_pair h)

theorem error_message_contains_escaped (a b c d : String)
    (h : OccursIn ("<script>" : String).data d.data) :
    OccursIn ("&lt;script&gt;" : String).data (error_message a b c d).data := by
  obtain ⟨u, v, hd⟩ := h
  have hesc : escList d.data = escList u ++ ("&lt;script&gt;" : String).data ++ escList v := by
    rw [hd, escList_append, escList_append]
    have hscript : escList ("<script>" : String).data = ("&lt;script&gt;" : String).data := by
      decide
    rw [hscript]
  rw [error_message_data]
  apply occursIn_append_right
  apply occursIn_append_right
  apply occursIn_append_right
  apply occursIn_append_right
  apply occursIn_append_right
  apply occursIn_append_right
  apply occursIn_append_right
  apply occursIn_append_right
  apply occursIn_append_right
  apply occursIn_append_right
  apply occursIn_append_right
  apply occursIn_append_left
  exact ⟨escList u, escList v, by rw [hesc]⟩

/-- C5: the error report escapes its components before embedding: when
the traceback text contains the raw substring of a script tag, the
single sent message carries the escaped entity form and never the raw
markup anywhere in its text. -/
theorem error_report_escapes_markup (cfg : Config) (ctx : ErrorContext)
    (h : OccursIn ("<script>" : String).data ctx.tb_string.data) :
    error_handler cfg ctx =
      [Action.sendMessage cfg.DEVELOPER_CHAT_ID
        (error_message ctx.update_str ctx.chat_data ctx.user_data ctx.tb_string) "HTML"] ∧
    OccursIn ("&lt;script&gt;" : String).data
      (error_message ctx.update_str ctx.chat_data ctx.user_data ctx.tb_string).data ∧
    ¬ OccursIn ("<script>" : String).data
      (error_message ctx.update_str ctx.chat_data ctx.user_data ctx.tb_string).data :=
  ⟨rfl, error_message_contains_escaped _ _ _ _ h, error_message_no_raw_script _ _ _ _⟩

theorem error_report_escapes_markup_witness :
    OccursIn ("<script>" : String).data ctx0.tb_string.data ∧
    (error_handler cfg42 ctx0 =
      [Action.sendMessage cfg42.DEVELOPER_CHAT_ID
        (error_message ctx0.update_str ctx0.chat_data ctx0.user_data ctx0.tb_string) "HTML"] ∧
     OccursIn ("&lt;script&gt;" : String).data
      (error_message ctx0.update_str ctx0.chat_data ctx0.user_data ctx0.tb_string).data ∧
     ¬ OccursIn ("<script>" : String).data
      (error_message ctx0.update_str ctx0.chat_data ctx0.user_data ctx0.tb_string).data) :=
  ⟨⟨"x".data, "y".data, by decide⟩,
   error_report_escapes_markup cfg42 ctx0 ⟨"x".data, "y".data, by decide⟩⟩

theorem start_replies_with_chat_id_witness :
    pyInt? cfg42.DEVELOPER_CHAT_ID = some 42 ∧ upd42.chat_id = 42 ∧
    (start cfg42 upd42 = ⟨[Action.replyHtml upd42.chat_id (usage_text upd42.chat_id)], none⟩ ∧
     OccursIn (toString upd42.chat_id).data (usage_text upd42.chat_id).data) :=
  ⟨by decide, by decide,
    start_replies_with_chat_id cfg42 upd42 42 (by decide) (by decide)⟩

end Photobot
